import Mathlib

/-!
Shallow embedding of the telegram-budget-bot receipt pipeline.

The definitions below are direct translations of the TypeScript source:
  * `src/services/DatabaseService.ts` (SQLite persistent store),
  * `src/index.ts` (lifecycle controller, sharing resolution, manual entry,
    concurrency guard),
  * `src/services/GoogleService.ts` (sheets export sink),
  * `src/utils/waitForAnswer.ts` (answer collector),
  * `src/config/config.ts` (keyword sets and category directory).

Machine reals (JS numbers) are modelled as exact rationals; none of the
verified properties depends on floating-point rounding.  Wall-clock
timestamps are modelled as explicit `Nat` parameters.  A product's
`isShared` field is `Option Bool`: the declared TS interface
`ReceiptProduct` has no such field and objects reconstructed from the
database lack it at runtime (`none` = JS `undefined`), while the flows in
`index.ts` assign it (`some b`).
-/

set_option autoImplicit false

namespace BudgetBot

/-- Lifecycle states, from `src/types.ts` (`ReceiptStatus`). -/
inductive ReceiptStatus where
  | RECEIVED
  | PROCESSING
  | ANALYZED
  | CATEGORIZED
  | SAVED_TO_SHEETS
  | COMPLETED
  | ERROR
deriving DecidableEq, Repr

/-- One entry of the persisted status history (`status_history` JSON). -/
structure StatusEntry where
  status : ReceiptStatus
  timestamp : Nat
  details : Option String
deriving DecidableEq, Repr

/-- Token accounting triple, from `src/types.ts` (`GPTTokens`). -/
structure GPTTokens where
  input_tokens : Nat
  output_tokens : Nat
  total_tokens : Nat
deriving DecidableEq, Repr

/-- An in-memory line item.  `isShared` is `Option Bool` because the declared
`ReceiptProduct` interface has no such field: products read back from the
store are missing it (JS `undefined`, here `none`), while the controller's
flows set it to a boolean. -/
structure ReceiptProduct where
  name : String
  price : ℚ
  category : String
  isShared : Option Bool
deriving DecidableEq, Repr

/-- The in-memory receipt aggregate, from `src/types.ts` (`ReceiptRecord`).
`purchaseType` is optional because `index.ts` builds initial records without
that field. -/
structure ReceiptRecord where
  filePath : String
  purchaseType : Option String
  comments : String
  timestamp : Nat
  storeName : Option String
  products : List ReceiptProduct
  totalAmount : ℚ
  gptTokens : GPTTokens
  status : ReceiptStatus
  statusHistory : List StatusEntry
deriving DecidableEq, Repr

/-- A row of the `products` table.  The schema created by
`DatabaseService.createTables` has exactly the columns
`receipt_id, name, price, category` (no shared flag). -/
structure ProductRow where
  receipt_id : Nat
  name : String
  price : ℚ
  category : String
deriving DecidableEq, Repr

/-- A row of the `receipts` table (column for column).  `purchase_type` is
declared `TEXT NOT NULL` by `createTables`, so the stored value is a plain
`String`; an attempt to insert a record without one is rejected by the
engine (see `createRecord`). -/
structure ReceiptRow where
  file_path : String
  purchase_type : String
  comments : String
  timestamp : Nat
  store_name : Option String
  total_amount : ℚ
  input_tokens : Nat
  output_tokens : Nat
  total_tokens : Nat
  status : ReceiptStatus
  status_history : List StatusEntry
deriving DecidableEq, Repr

/-- The SQLite database: the two tables plus the AUTOINCREMENT counter.
Row order in `products` is rowid order, i.e. insertion order, which is the
order `SELECT * FROM products WHERE receipt_id = ?` returns. -/
structure Db where
  receipts : List (Nat × ReceiptRow)
  products : List ProductRow
  nextId : Nat
deriving DecidableEq, Repr

/-- The empty, freshly created database (SQLite rowids start at 1). -/
def dbEmpty : Db := ⟨[], [], 1⟩

/-- Column projection used by `createRecord`, once the NOT NULL
`purchase_type` value `pt` is known. -/
def rowOfRecord (rec : ReceiptRecord) (pt : String) : ReceiptRow :=
  { file_path := rec.filePath
    purchase_type := pt
    comments := rec.comments
    timestamp := rec.timestamp
    store_name := rec.storeName
    total_amount := rec.totalAmount
    input_tokens := rec.gptTokens.input_tokens
    output_tokens := rec.gptTokens.output_tokens
    total_tokens := rec.gptTokens.total_tokens
    status := rec.status
    status_history := rec.statusHistory }

/-- `DatabaseService.createRecord`: INSERT into `receipts`; the product list
is not inserted here (the source inserts only receipt columns).  Returns the
new database and the fresh id (`result.lastID`).  `purchase_type` is
declared `TEXT NOT NULL`, and a record without `purchaseType` (the driver
binds JS `undefined` as NULL) is rejected by the engine — the flows in
`index.ts` build exactly such records, so their INSERT throws. -/
def createRecord (db : Db) (rec : ReceiptRecord) : Except String (Db × Nat) :=
  match rec.purchaseType with
  | none =>
      .error "SQLITE_CONSTRAINT: NOT NULL constraint failed: receipts.purchase_type"
  | some pt =>
      .ok ({ db with
              receipts := db.receipts ++ [(db.nextId, rowOfRecord rec pt)]
              nextId := db.nextId + 1 },
           db.nextId)

/-- `DatabaseService.updateReceiptStatus`: SELECT the current history, throw
`Receipt not found` when the id is absent, append one entry and write
`status` + `status_history` back. -/
def updateReceiptStatus (db : Db) (id : Nat) (status : ReceiptStatus)
    (ts : Nat) (details : Option String) : Except String Db :=
  match db.receipts.lookup id with
  | none => .error "Receipt not found"
  | some row =>
      .ok { db with
              receipts := db.receipts.map fun x =>
                if x.1 = id then
                  (id, { row with
                           status := status
                           status_history := row.status_history ++ [⟨status, ts, details⟩] })
                else x }

/-- `DatabaseService.updateRecord`: UPDATE the receipt columns
(`store_name, total_amount, tokens, status, status_history`) for the given
id, DELETE this receipt's product rows, and INSERT the record's products
(columns `name, price, category` only).  The source has no existence check
and no error path: an unknown id updates zero rows and still inserts the
product rows (SQLite foreign keys are not enabled anywhere in the repo). -/
def updateRecord (db : Db) (id : Nat) (rec : ReceiptRecord) : Except String Db :=
  .ok { db with
          receipts := db.receipts.map fun x =>
            if x.1 = id then
              (id, { x.2 with
                       store_name := rec.storeName
                       total_amount := rec.totalAmount
                       input_tokens := rec.gptTokens.input_tokens
                       output_tokens := rec.gptTokens.output_tokens
                       total_tokens := rec.gptTokens.total_tokens
                       status := rec.status
                       status_history := rec.statusHistory })
            else x
          products :=
            db.products.filter (fun p => p.receipt_id ≠ id) ++
              rec.products.map (fun p => ⟨id, p.name, p.price, p.category⟩) }

/-- `DatabaseService.getRecordById`: SELECT the receipt row and its product
rows.  Reconstructed products carry only `name, price, category`; the
`isShared` property of the returned objects is `undefined` (`none`). -/
def getRecordById (db : Db) (id : Nat) : Option ReceiptRecord :=
  (db.receipts.lookup id).map fun row =>
    { filePath := row.file_path
      purchaseType := some row.purchase_type
      comments := row.comments
      timestamp := row.timestamp
      storeName := row.store_name
      products :=
        (db.products.filter (fun p => p.receipt_id = id)).map fun p =>
          ⟨p.name, p.price, p.category, none⟩
      totalAmount := row.total_amount
      gptTokens := ⟨row.input_tokens, row.output_tokens, row.total_tokens⟩
      status := row.status
      statusHistory := row.status_history }

/-! ### String helpers (JS semantics) -/

/-- Does `needle` occur at the head of `hay`? (helper for `includes`). -/
def headMatches : List Char → List Char → Bool
  | [], _ => true
  | _ :: _, [] => false
  | a :: as, b :: bs => a = b && headMatches as bs

/-- Does `needle` occur anywhere in `hay`? (helper for `includes`). -/
def subList (needle : List Char) : List Char → Bool
  | [] => needle.isEmpty
  | c :: rest => headMatches needle (c :: rest) || subList needle rest

/-- JS `hay.includes(needle)` (substring containment). -/
def includesStr (hay needle : String) : Bool :=
  subList needle.data hay.data

/-- JS `s.toUpperCase()` (ASCII, which is all the flows compare). -/
def toUpperStr (s : String) : String :=
  ⟨s.data.map Char.toUpper⟩

/-- JS `s.toLowerCase()` (ASCII, which is all the keyword sets use). -/
def toLowerStr (s : String) : String :=
  ⟨s.data.map Char.toLower⟩

/-- ASCII whitespace (what the flows' inputs can contain). -/
def isWsChar (c : Char) : Bool :=
  c = ' ' || c = '\t' || c = '\n' || c = '\r'

/-- JS `s.trim()` on a character list. -/
def trimChars (cs : List Char) : List Char :=
  ((cs.dropWhile isWsChar).reverse.dropWhile isWsChar).reverse

/-- JS `s.trim()`. -/
def trimStr (s : String) : String :=
  ⟨trimChars s.data⟩

/-- JS `s.split(',')` on a character list: always at least one field. -/
def splitCommaChars : List Char → List (List Char)
  | [] => [[]]
  | c :: rest =>
      if c = ',' then [] :: splitCommaChars rest
      else
        match splitCommaChars rest with
        | [] => [[c]]
        | t :: ts => (c :: t) :: ts

/-- JS `s.split(',')`. -/
def splitComma (s : String) : List String :=
  (splitCommaChars s.data).map fun cs => ⟨cs⟩

/-- `keys.some(k => t.includes(k))`, the keyword test used throughout
`index.ts` (`t` is already lower-cased by the callers). -/
def anyKeyword (keys : List String) (t : String) : Bool :=
  keys.any fun k => includesStr t k

/-- Value of a list of decimal digit characters. -/
def decValue (cs : List Char) : Nat :=
  cs.foldl (fun a c => a * 10 + (c.toNat - '0'.toNat)) 0

/-- Value of a list of hexadecimal digit characters. -/
def hexValue (cs : List Char) : Nat :=
  cs.foldl
    (fun a c =>
      a * 16 +
        (if c.isDigit then c.toNat - '0'.toNat
         else if 'a' ≤ c ∧ c ≤ 'f' then c.toNat - 'a'.toNat + 10
         else c.toNat - 'A'.toNat + 10))
    0

/-- Is `c` a hexadecimal digit? -/
def isHexDigit (c : Char) : Bool :=
  c.isDigit || ('a' ≤ c && c ≤ 'f') || ('A' ≤ c && c ≤ 'F')

/-- JS `parseInt(s)` with the default radix: skip whitespace, optional sign,
a `0x`/`0X` prefix selects base 16, otherwise the longest prefix of decimal
digits; `none` models `NaN`. -/
def jsParseInt (s : String) : Option Int :=
  let cs := trimChars s.data
  let sg : Int := match cs with
    | '-' :: _ => -1
    | _ => 1
  let cs1 := match cs with
    | '-' :: rest => rest
    | '+' :: rest => rest
    | _ => cs
  let core : Option Nat := match cs1 with
    | '0' :: c :: rest =>
        if c = 'x' || c = 'X' then
          let ds := rest.takeWhile isHexDigit
          if ds.isEmpty then none else some (hexValue ds)
        else some (decValue (cs1.takeWhile Char.isDigit))
    | _ =>
        let ds := cs1.takeWhile Char.isDigit
        if ds.isEmpty then none else some (decValue ds)
  core.map fun n => sg * n

/-- JS `parseFloat(s)` restricted to plain decimal notation (optional sign,
integer part, optional fraction); the manual-entry flow only ever feeds it
user-typed prices.  `none` models `NaN`. -/
def jsParseFloat (s : String) : Option ℚ :=
  let cs := trimChars s.data
  let sg : ℚ := match cs with
    | '-' :: _ => -1
    | _ => 1
  let cs1 := match cs with
    | '-' :: rest => rest
    | '+' :: rest => rest
    | _ => cs
  let ip := cs1.takeWhile Char.isDigit
  let rest := cs1.drop ip.length
  let fp := match rest with
    | '.' :: r => r.takeWhile Char.isDigit
    | _ => []
  if ip.isEmpty && fp.isEmpty then none
  else some (sg * ((decValue ip : ℚ) + (decValue fp : ℚ) / (10 ^ fp.length)))

/-! ### Configuration (`src/config/config.ts`) -/

def commonKeywords : List String := ["w", "r"]

def soloKeywords : List String := ["p", "pv"]

def multiKeywords : List String := ["multi", "m"]

def yesKeywords : List String := ["tak", "t", "y"]

def noKeywords : List String := ["nie", "n"]

def manualCommands : List String := ["rachunek", "manualnie", "bill", "manual", "m"]

def commonExpensePercentage : ℚ := 1 / 2

/-- A static category, from `config.categories`. -/
structure Category where
  id : String
  name : String
  description : String
deriving DecidableEq, Repr

def categories : List Category :=
  [ ⟨"FOH", "Jedzenie – Dom", "Zakupy spożywcze, gotowanie w domu"⟩,
    ⟨"FOD", "Jedzenie – Na mieście", "Restauracje, kawiarnie, fast food, napoje na mieście"⟩,
    ⟨"CAR", "Transport – Samochód", "Paliwo, naprawy, ubezpieczenie, przeglądy"⟩,
    ⟨"TRN", "Transport – Komunikacja", "Bilety komunikacji miejskiej, Uber, taksówki, rowery, hulajnogi"⟩,
    ⟨"HOM", "Mieszkanie & Rachunki", "Czynsz, media, internet, telefon"⟩,
    ⟨"HLT", "Zdrowie & Higiena", "Leki, lekarze, kosmetyki, fryzjer"⟩,
    ⟨"CLT", "Odzież & Obuwie", "Ubrania, buty, dodatki"⟩,
    ⟨"ENT", "Rozrywka & Hobby", "Kino, gry, koncerty, książki, siłownia, sporty"⟩,
    ⟨"SUB", "Subskrypcje & Usługi cyfrowe", "Netflix, Spotify, inne abonamenty"⟩,
    ⟨"EDU", "Edukacja & Rozwój", "Kursy, szkolenia, książki, materiały edukacyjne"⟩,
    ⟨"TRV", "Podróże & Wyjazdy", "Bilety, noclegi, atrakcje turystyczne"⟩,
    ⟨"GFT", "Prezenty & Okazje specjalne", "Urodziny, święta, rocznice"⟩,
    ⟨"INV", "Inwestycje & Oszczędności", "Fundusze, giełda, oszczędności"⟩,
    ⟨"INS", "Ubezpieczenia & Finanse", "Polisy, prowizje, opłaty bankowe"⟩,
    ⟨"ELE", "Sprzęt & Elektronika", "AGD, komputery, telefony, akcesoria"⟩,
    ⟨"PET", "Zwierzęta & Opieka nad nimi", "Karma, weterynarz, akcesoria"⟩,
    ⟨"CHA", "Charytatywność & Darowizny", "Wsparcie organizacji, datki"⟩,
    ⟨"OTH", "Inne wydatki", "Wszystko, co nie pasuje do powyższych kategorii"⟩ ]

/-- `findCategory`: case-insensitive lookup by id or name. -/
def findCategory (idOrName : String) : Option Category :=
  categories.find? fun c =>
    toLowerStr c.id = toLowerStr idOrName || toLowerStr c.name = toLowerStr idOrName

/-! ### Sharing resolver (`preciseAiResponse` in `src/index.ts`) -/

/-- JS truthiness of the `isShared` property (`undefined` is falsy). -/
def jsTruthy : Option Bool → Bool
  | none => false
  | some b => b

/-- `product.isShared = !product.isShared` (JS `!undefined` is `true`). -/
def flipShared (p : ReceiptProduct) : ReceiptProduct :=
  { p with isShared := some (!jsTruthy p.isShared) }

/-- Toggle the item at 0-based position `k`; out of range is a no-op
(`if (record.products[index - 1])` skips missing entries). -/
def toggleAt : List ReceiptProduct → Nat → List ReceiptProduct
  | [], _ => []
  | p :: ps, 0 => flipShared p :: ps
  | p :: ps, k + 1 => p :: toggleAt ps k

/-- `selectionAnswer.split(',').map(n => parseInt(n.trim())).filter(n =>
!isNaN(n) && n > 0 && n <= record.products.length)`. -/
def parseSelections (input : String) (len : Nat) : List Int :=
  ((splitComma input).filterMap fun tok => jsParseInt (trimStr tok)).filter
    fun n => 0 < n && n ≤ (len : Int)

/-- `numbers.forEach(index => { if (record.products[index-1]) toggle })`.
The `1 ≤ n` test mirrors the JS truthiness guard for negative indices. -/
def applyToggles (nums : List Int) (ps : List ReceiptProduct) : List ReceiptProduct :=
  nums.foldl (fun acc n => if 1 ≤ n then toggleAt acc (n - 1).toNat else acc) ps

/-- Observable outcome of one iteration of the selection loop. -/
structure SelResult where
  products : List ReceiptProduct
  exited : Bool
  redisplayed : Bool
  invalidMsg : Bool
deriving DecidableEq, Repr

/-- One iteration of the mixed-mode selection loop body
(`index.ts`, the `while (true)` in the multi branch). -/
def selStep (input : String) (ps : List ReceiptProduct) : SelResult :=
  if toUpperStr input = "STOP" then ⟨ps, true, false, false⟩
  else if toUpperStr input = "SHOW" then ⟨ps, false, true, false⟩
  else
    let nums := parseSelections input ps.length
    if nums.isEmpty then ⟨ps, false, false, true⟩
    else ⟨applyToggles nums ps, false, true, false⟩

/-- The whole selection loop over a list of user inputs (the real loop ends
on `STOP`; an exhausted input list leaves the loop blocked, which is
observationally the products accumulated so far). -/
def runSelLoop : List String → List ReceiptProduct → List ReceiptProduct
  | [], ps => ps
  | i :: rest, ps =>
      let r := selStep i ps
      if r.exited then ps else runSelLoop rest r.products

/-! ### Flow plumbing

The controller flows in `index.ts` always call the store with an id they
created earlier, so the `Receipt not found` branch of `updateReceiptStatus`
and the (non-existent) error branch of `updateRecord` are unreachable there;
`statusD` and `updateRecordD` keep the database unchanged on that dead
branch so the flows can be written as plain state transformers. -/

def statusD (db : Db) (id : Nat) (s : ReceiptStatus) (ts : Nat)
    (details : Option String) : Db :=
  match updateReceiptStatus db id s ts details with
  | .ok db' => db'
  | .error _ => db

def updateRecordD (db : Db) (id : Nat) (rec : ReceiptRecord) : Db :=
  match updateRecord db id rec with
  | .ok db' => db'
  | .error _ => db

/-! ### Sheets export (`src/services/GoogleService.ts` and
`appendReceiptToGoogleSheets` in `src/index.ts`) -/

/-- Outcome of the Google Sheets API calls made by one `appendRecord` call
(`getSheetIdByTitle` + `batchUpdate`, collapsed): the call succeeds, the
month sheet is missing, or the API errors. -/
inductive SheetsApi where
  | ok
  | noSheet
  | fail
deriving DecidableEq, Repr

/-- One exported row (the wall-clock date column is abstracted away). -/
structure SheetRow where
  store : String
  product : String
  price : ℚ
  category : String
  sharedStr : String
deriving DecidableEq, Repr

/-- The error message of the JS `TypeError` raised by
`record.isShared.toString()` when `isShared` is `undefined`. -/
def typeErrMsg : String := "Cannot read properties of undefined (reading toString)"

/-- `GoogleSheetsClient.appendRecord`.  The row is built *before* the
`try` block: with `isShared` undefined, `record.isShared.toString()` throws
(an `error` result).  Inside the `try`, a missing sheet returns early and an API
error is caught and only logged, so both yield `.ok none` (no row, no
signal to the caller); success yields `.ok (some row)`. -/
def appendRecordG (store productName : String) (price : ℚ) (category : String)
    (isShared : Option Bool) (api : SheetsApi) : Except String (Option SheetRow) :=
  match isShared with
  | none => .error typeErrMsg
  | some b =>
      let finalPrice := if b then price * commonExpensePercentage else price
      let row : SheetRow :=
        ⟨store, productName, finalPrice, category, if b then "true" else "false"⟩
      match api with
      | .ok => .ok (some row)
      | .noSheet => .ok none
      | .fail => .ok none

/-- The `for (const product of record.products)` loop of
`appendReceiptToGoogleSheets`: rows written so far, plus the first error to
escape `appendRecord` (which aborts the remaining iterations).  `k` numbers
the API calls. -/
def exportProducts (store : String) (api : Nat → SheetsApi) :
    List ReceiptProduct → Nat → List SheetRow × Option String
  | [], _ => ([], none)
  | p :: ps, k =>
      match appendRecordG store p.name p.price p.category p.isShared (api k) with
      | .error e => ([], some e)
      | .ok r =>
          let rest := exportProducts store api ps (k + 1)
          (r.toList ++ rest.1, rest.2)

/-- `appendReceiptToGoogleSheets`: re-fetch the record from the store, then
run the per-product loop; a missing record throws `Record not found`. -/
def appendReceiptToGoogleSheets (db : Db) (id : Nat) (api : Nat → SheetsApi) :
    List SheetRow × Option String :=
  match getRecordById db id with
  | none => ([], some "Record not found")
  | some r => exportProducts (r.storeName.getD "") api r.products 0

/-- Result of the export phase of the photo handler. -/
structure ExportOut where
  db : Db
  rows : List SheetRow
  errored : Bool
deriving Repr

/-- `index.ts` lines 147-161: `PROCESSING` marker, export, then either
`SAVED_TO_SHEETS` followed by `COMPLETED`, or the catch that records
`ERROR` with the underlying message and returns. -/
def exportPhase (db : Db) (id : Nat) (api : Nat → SheetsApi) (ts : Nat) : ExportOut :=
  let db1 := statusD db id .PROCESSING ts (some "Saving to Google Sheets")
  let res := appendReceiptToGoogleSheets db1 id api
  match res.2 with
  | some e =>
      ⟨statusD db1 id .ERROR (ts + 1) (some ("Failed to save to Google Sheets: " ++ e)),
       res.1, true⟩
  | none =>
      let db2 := statusD db1 id .SAVED_TO_SHEETS (ts + 1) (some "Data saved to Google Sheets")
      ⟨statusD db2 id .COMPLETED (ts + 2) (some "Receipt processing completed successfully"),
       res.1, false⟩

/-! ### AI branch of the photo flow (`src/index.ts`) -/

/-- `handleAiProcessingQuestion`: manual/no keywords beat yes keywords; the
validator guarantees one of the classes matched, and the unreachable
fall-through returns `manual`. -/
def modeDecision (answer : String) : Bool :=
  let t := toLowerStr answer
  if anyKeyword manualCommands t || anyKeyword noKeywords t then false
  else if anyKeyword yesKeywords t then true
  else false

/-- Payload of a successful `OpenAIClient.analyzeReceipt` call
(`store_name, products, total_amount` plus usage). -/
structure AiResp where
  store_name : String
  products : List ReceiptProduct
  total_amount : ℚ
  usage : GPTTokens
deriving Repr

/-- `analyzeReceiptWithOpenAI`: on a response, write the AI fields into the
fetched record and persist; on a missing record or a collaborator error
(`ai = none`), report failure without touching the store. -/
def analyzeStep (db : Db) (id : Nat) (ai : Option AiResp) : Db × Bool :=
  match getRecordById db id, ai with
  | none, _ => (db, false)
  | some _, none => (db, false)
  | some record, some resp =>
      (updateRecordD db id
        { record with
            gptTokens := resp.usage
            storeName := some resp.store_name
            products := resp.products
            totalAmount := resp.total_amount },
       true)

/-- The fields `processReceiptWithOpenAI` returns to the photo handler
(re-read from the store after `analyzeStep`). -/
structure AiProcessResp where
  storeName : String
  products : List ReceiptProduct
  totalAmount : ℚ
  gptTokens : GPTTokens
deriving Repr

/-- `processReceiptWithOpenAI`: run the analysis, then re-fetch the record
and return its fields (`null` when the analysis or the fetch failed). -/
def processReceiptWithOpenAI (db : Db) (id : Nat) (ai : Option AiResp) :
    Db × Option AiProcessResp :=
  let (db1, okA) := analyzeStep db id ai
  if okA then
    match getRecordById db1 id with
    | none => (db1, none)
    | some record =>
        (db1, some ⟨record.storeName.getD "", record.products,
                    record.totalAmount, record.gptTokens⟩)
  else (db1, none)

/-- `preciseAiResponse`: fetch the record, classify the sharing answer
(shared / private / multi via substring keyword match, in that order), in
the multi case apply the default flag to every product and run the
selection loop, then persist the record. -/
def preciseAiResponse (db : Db) (id : Nat) (typeAnswer defaultAnswer : String)
    (loopInputs : List String) : Db :=
  match getRecordById db id with
  | none => db
  | some record =>
      let t := toLowerStr typeAnswer
      let ps :=
        if anyKeyword commonKeywords t then
          record.products.map fun p => { p with isShared := some true }
        else if anyKeyword soloKeywords t then
          record.products.map fun p => { p with isShared := some false }
        else if anyKeyword multiKeywords t then
          let d := anyKeyword commonKeywords (toLowerStr defaultAnswer)
          runSelLoop loopInputs
            (record.products.map fun p => { p with isShared := some d })
        else record.products
      updateRecordD db id { record with products := ps }

/-- Result of a full photo-handler run. -/
structure FlowOut where
  db : Db
  id : Nat
  rows : List SheetRow
  delegatedToManual : Bool
deriving Repr

/-- The `bot.on('photo')` handler from record creation onward (the image
pipeline already succeeded and produced `filePath`).  Parameters stand for
the successive user answers and collaborator outcomes; `ts` timestamps are
abstracted to `0`.  The handler has no try/catch around `createRecord`, so
a rejected INSERT (the `initialRecord` carries no `purchaseType`, a NOT
NULL column) kills the whole flow with an unhandled rejection.  Note also that the handler
passes the stale in-memory `initialRecord` to `updateRecord` at the
comment step and again after the AI call, overwriting
`status`/`status_history` with that record's copies. -/
def photoFlow (db0 : Db) (filePath : String) (modeAnswer : String)
    (comments : String) (ai : Option AiResp) (shareAnswer defaultAnswer : String)
    (loopInputs : List String) (api : Nat → SheetsApi) : Except String FlowOut :=
  let initialRecord : ReceiptRecord :=
    { filePath := filePath
      purchaseType := none
      comments := ""
      timestamp := 0
      storeName := some ""
      products := []
      totalAmount := 0
      gptTokens := ⟨0, 0, 0⟩
      status := .RECEIVED
      statusHistory := [⟨.RECEIVED, 0, some "Receipt photo received"⟩] }
  match createRecord db0 initialRecord with
  | .error e => .error e
  | .ok (db1, receiptId) =>
    let db2 := statusD db1 receiptId .PROCESSING 0 (some "Selected processing way")
    if !modeDecision modeAnswer then
      -- delegation to handleManualRecipe, then `return` (manual flow modelled separately)
      .ok ⟨db2, receiptId, [], true⟩
    else
      let recWithComments := { initialRecord with comments := comments }
      let db3 := updateRecordD db2 receiptId recWithComments
      let db4 := statusD db3 receiptId .PROCESSING 0 (some "Starting AI analysis")
      let (db5, aiResponse) := processReceiptWithOpenAI db4 receiptId ai
      let recAfterAi :=
        { recWithComments with
            storeName := some ((aiResponse.map (·.storeName)).getD "")
            products := (aiResponse.map (·.products)).getD []
            totalAmount := (aiResponse.map (·.totalAmount)).getD 0
            gptTokens := (aiResponse.map (·.gptTokens)).getD ⟨0, 0, 0⟩ }
      let db6 := updateRecordD db5 receiptId recAfterAi
      let db7 := statusD db6 receiptId .ANALYZED 0 (some "AI analysis completed")
      let db8 := preciseAiResponse db7 receiptId shareAnswer defaultAnswer loopInputs
      let db9 := statusD db8 receiptId .CATEGORIZED 0 (some "Categories precised")
      let out := exportPhase db9 receiptId api 0
      .ok ⟨out.db, receiptId, out.rows, false⟩

/-! ### Manual entry (`handleManualRecipe` in `src/index.ts`) -/

/-- The product-entry loop: each line is either empty / `stop` (break), or
`name, category, price[, sharing]` parsed with the checks of the source
(missing field, unknown category, unparsable price each skip the line).
Products are collected in entry order; an exhausted input list is modelled
as the loop stopping with what it has (the real loop would block). -/
def collectManual (isSharedDefault : Bool) : List String → List ReceiptProduct
  | [] => []
  | s :: rest =>
      let productText := trimStr s
      if productText = "" || toLowerStr productText = "stop" then []
      else
        let parts := (splitComma productText).map trimStr
        let name := (parts.getD 0 "")
        let category := (parts.getD 1 "")
        let priceStr := (parts.getD 2 "")
        let isSharedUserInput := (parts.getD 3 "")
        if name = "" || category = "" || priceStr = "" then
          collectManual isSharedDefault rest
        else
          let isShared :=
            if isSharedUserInput ≠ "" then
              anyKeyword commonKeywords (toLowerStr isSharedUserInput)
            else isSharedDefault
          match findCategory category with
          | none => collectManual isSharedDefault rest
          | some c =>
              match jsParseFloat priceStr with
              | none => collectManual isSharedDefault rest
              | some price =>
                  ⟨name, price, c.name, some isShared⟩ ::
                    collectManual isSharedDefault rest

/-- Result of a `handleManualRecipe` run. -/
structure ManualOut where
  db : Db
  id : Option Nat
  exportCalled : Bool
  rows : List SheetRow
deriving Repr

/-- The `catch` block of `handleManualRecipe`: record `ERROR` with the
message when a receipt id is known (`if (receiptId)`). -/
def manualCatch (db : Db) (rid : Option Nat) (msg : String) (exported : Bool)
    (rows : List SheetRow) : ManualOut :=
  match rid with
  | none => ⟨db, none, exported, rows⟩
  | some i =>
      ⟨statusD db i .ERROR 9 (some ("Manual recipe entry failed: " ++ msg)),
       some i, exported, rows⟩

/-- `handleManualRecipe`.  `rid = some i` is the photo-delegation variant
(line 329 with `receiptId`), `rid = none` creates a fresh record.
`storeInput` is the first message after the store prompt, `typeAnswer` the
validated purchase-type answer, `itemInputs` the product lines. -/
def handleManualRecipe (db0 : Db) (rid : Option Nat) (storeInput typeAnswer : String)
    (itemInputs : List String) (api : Nat → SheetsApi) : ManualOut :=
  let resolved : Option (ReceiptRecord × Nat × Db) :=
    match rid with
    | some i =>
        match getRecordById db0 i with
        | none => none
        | some r =>
            some (r, i, statusD db0 i .PROCESSING 1 (some "Starting manual recipe entry"))
    | none =>
        let receipt : ReceiptRecord :=
          { filePath := ""
            purchaseType := none
            comments := ""
            timestamp := 0
            storeName := some ""
            products := []
            totalAmount := 0
            gptTokens := ⟨0, 0, 0⟩
            status := .RECEIVED
            statusHistory := [⟨.RECEIVED, 0, some "Manual recipe entry started"⟩] }
        match createRecord db0 receipt with
        | .error _ => none
        | .ok (db1, i) => some (receipt, i, db1)
  match resolved with
  | none => ⟨db0, rid, false, []⟩
      -- the unknown-id `return` (no ERROR status), and the rejected INSERT:
      -- the catch skips the ERROR status because `receiptId` is still unset
      -- when `createRecord` throws, and the store is left untouched
  | some (receipt, receiptId, db1) =>
      let storeName := trimStr storeInput
      if storeName = "" then
        manualCatch db1 (some receiptId) "Store name is required" false []
      else
        let isSharedDefault := anyKeyword commonKeywords (toLowerStr typeAnswer)
        let products := collectManual isSharedDefault itemInputs
        let totalAmount := (products.map (·.price)).sum
        if products = [] then
          manualCatch db1 (some receiptId) "At least one product is required" false []
        else
          let receipt' :=
            { receipt with
                storeName := some storeName
                products := products
                totalAmount := totalAmount }
          let db2 := updateRecordD db1 receiptId receipt'
          let db3 := statusD db2 receiptId .PROCESSING 2
                       (some "Saving manual recipe to Google Sheets")
          let res := appendReceiptToGoogleSheets db3 receiptId api
          match res.2 with
          | some e => manualCatch db3 (some receiptId) e true res.1
          | none =>
              let db4 := statusD db3 receiptId .SAVED_TO_SHEETS 3
                           (some "Manual recipe saved to Google Sheets")
              let db5 := statusD db4 receiptId .COMPLETED 4
                           (some "Manual recipe entry completed successfully")
              ⟨db5, some receiptId, true, res.1⟩

/-! ### Concurrency guard (`isProcessing` in `src/index.ts`) -/

/-- How a run of the photo handler can exit, one constructor per
return path of `bot.on('photo')`:
`noPhoto` = empty photo array (line 72), `imageFail` = image pipeline
returned null (line 77), `manualBranch` = delegation return (line 109),
`sheetsError` = export catch return (line 157), `thrown` = an uncaught
exception rejects the handler, `aiSuccess` = the single path reaching
line 163. -/
inductive PhotoOutcome where
  | noPhoto
  | imageFail
  | manualBranch
  | aiSuccess
  | sheetsError
  | thrown
deriving DecidableEq, Repr

/-- Inbound triggers guarded by `isProcessing`. -/
inductive BotEvent where
  | photo (o : PhotoOutcome)
  | startCmd
  | manualCmd
deriving DecidableEq, Repr

/-- The value of `isProcessing` after a photo handler run:
only the full success path executes `isProcessing = false` (line 163). -/
def guardAfterPhoto : PhotoOutcome → Bool
  | .aiSuccess => false
  | _ => true

/-- One event against the guard: a held guard drops the trigger
(`if (isProcessing) return`); otherwise the handler runs.  Returns the new
guard value and whether a flow actually started. -/
def stepEvent (g : Bool) (e : BotEvent) : Bool × Bool :=
  if g then (g, false)
  else
    match e with
    | .photo o => (guardAfterPhoto o, true)
    | .startCmd => (false, true)
    | .manualCmd => (false, true)

/-- Fold a list of inbound events through the guard, recording for each
whether its flow started. -/
def runEvents (g : Bool) : List BotEvent → Bool × List Bool
  | [] => (g, [])
  | e :: es =>
      let (g', s) := stepEvent g e
      let (gf, ss) := runEvents g' es
      (gf, s :: ss)

/-! ### Answer collector (`src/utils/waitForAnswer.ts`) -/

/-- An inbound chat message (only the fields `waitForAnswer` inspects). -/
structure TMsg where
  chatId : Nat
  text : Option String
deriving DecidableEq, Repr

/-- The events a pending `waitForAnswer` promise can observe: an inbound
`message` event, or the `setTimeout` timer firing. -/
inductive WaitEvent where
  | msg (m : TMsg)
  | timerFires
deriving DecidableEq, Repr

/-- `waitForAnswer` as a function of the event sequence: the `onMessage`
listener resolves with the first message satisfying
`msg.chat.id === chatId && filter(msg)` (clearing the timer); the timer
firing first resolves with `null`; an exhausted event list leaves the
promise pending (`none`). -/
def waitResolve (chatId : Nat) (filter : TMsg → Bool) :
    List WaitEvent → Option (Option TMsg)
  | [] => none
  | .timerFires :: _ => some none
  | .msg m :: rest =>
      if m.chatId = chatId && filter m then some (some m)
      else waitResolve chatId filter rest

/-- An event is non-resolving for a pending `waitForAnswer` when it is not
the timer and not a matching message. -/
def nonResolving (chatId : Nat) (filter : TMsg → Bool) : WaitEvent → Prop
  | .timerFires => False
  | .msg m => ¬(m.chatId = chatId ∧ filter m = true)

instance (chatId : Nat) (filter : TMsg → Bool) (e : WaitEvent) :
    Decidable (nonResolving chatId filter e) := by
  cases e <;> simp only [nonResolving] <;> infer_instance

/-! ### Call sequences against the store (harness for the history claims) -/

/-- One `updateReceiptStatus` call: status, timestamp, optional details. -/
def StatusCall : Type := ReceiptStatus × Nat × Option String

/-- The history entry a call appends. -/
def callEntry (c : StatusCall) : StatusEntry := ⟨c.1, c.2.1, c.2.2⟩

/-- A sequence of `updateReceiptStatus` calls, stopping at the first error. -/
def appendStatusSeq (db : Db) (id : Nat) : List StatusCall → Except String Db
  | [] => .ok db
  | c :: cs =>
      match updateReceiptStatus db id c.1 c.2.1 c.2.2 with
      | .error e => .error e
      | .ok db' => appendStatusSeq db' id cs

/-- The record's `status` field after a call sequence (the status of the
last call, or the prior status for the empty sequence). -/
def statusAfter (dflt : ReceiptStatus) : List StatusCall → ReceiptStatus
  | [] => dflt
  | c :: cs => statusAfter c.1 cs

/-! ### Concrete instances used by the closed theorems -/

/-- A bare just-created receipt record; it carries a `purchaseType`, so
its INSERT satisfies the NOT NULL column and succeeds. -/
def recA : ReceiptRecord :=
  { filePath := "receipt.jpg"
    purchaseType := some "solo"
    comments := ""
    timestamp := 0
    storeName := some ""
    products := []
    totalAmount := 0
    gptTokens := ⟨0, 0, 0⟩
    status := .RECEIVED
    statusHistory := [⟨.RECEIVED, 0, some "Receipt photo received"⟩] }

/-- `recA` with one line item whose ownership flag is set. -/
def recB : ReceiptRecord :=
  { recA with products := [⟨"Mleko", 3 / 2, "FOH", some true⟩] }

/-- A store holding exactly the receipt `recA` under id 1 (the creation
succeeds because `recA` has a purchase type). -/
def dbA : Db :=
  match createRecord dbEmpty recA with
  | .ok x => x.1
  | .error _ => dbEmpty

/-- The spec's worked example: three items, default flag `false`. -/
def ex3 : List ReceiptProduct :=
  [⟨"A", 1, "C", some false⟩, ⟨"B", 1, "C", some false⟩, ⟨"C", 1, "C", some false⟩]

/-- The AI analysis of the end-to-end scenario (store `CH Posnania`, two
items priced 69.99 and 164.99). -/
def aiScenario : AiResp :=
  ⟨"CH Posnania",
   [⟨"Kolekcja Podstawowa", 69.99, "Odzież & Obuwie", none⟩,
    ⟨"Spodnie", 164.99, "Odzież & Obuwie", none⟩],
   234.98, ⟨1207, 59, 1266⟩⟩

/-- The end-to-end AI-flow scenario: photo, mode answer `t`, AI success,
sharing mode `multi`, default `w` (shared), toggle item 2, `STOP`; the
sheets API itself is healthy. -/
def c2flow : Except String FlowOut :=
  photoFlow dbEmpty "receipt.jpg" "t" "" (some aiScenario) "multi" "w" ["2", "STOP"]
    (fun _ => .ok)

/-- Two fully flagged line items, as the export step is specified to
receive them. -/
def ps2 : List ReceiptProduct :=
  [⟨"Kurtka", 100, "CLT", some true⟩, ⟨"Spodnie", 50, "CLT", some true⟩]

/-- A sheets API that errors on the first append call and then recovers. -/
def apiFailFirst : Nat → SheetsApi := fun k => if k = 0 then .fail else .ok

/-! ## Helper lemmas -/

theorem take_len_append {α : Type} (l m : List α) : (l ++ m).take l.length = l := by
  induction l with
  | nil => rfl
  | cons a t ih => simp [ih]

theorem exists_concat {α : Type} (l : List α) (h : l ≠ []) :
    ∃ init c, l = init ++ [c] := by
  induction l with
  | nil => exact absurd rfl h
  | cons a t ih =>
      cases t with
      | nil => exact ⟨[], a, rfl⟩
      | cons b t2 =>
          obtain ⟨i, c, hc⟩ := ih (by simp)
          exact ⟨a :: i, c, by simp [hc]⟩

theorem ext_of_getElemQ {α : Type} :
    ∀ (l m : List α), (∀ j : Nat, l[j]? = m[j]?) → l = m := by
  intro l
  induction l with
  | nil =>
      intro m h
      cases m with
      | nil => rfl
      | cons b t => exact absurd (h 0).symm (by simp)
  | cons a t ih =>
      intro m h
      cases m with
      | nil => exact absurd (h 0) (by simp)
      | cons b s =>
          have h0 := h 0
          simp only [List.getElem?_cons_zero, Option.some.injEq] at h0
          have ht : t = s := ih s fun j => by
            have := h (j + 1)
            simpa using this
          rw [h0, ht]

theorem lookup_map_const (l : List (Nat × ReceiptRow)) (id : Nat) (v : ReceiptRow) :
    List.lookup id (l.map fun x => if x.1 = id then (id, v) else x) =
      (List.lookup id l).map fun _ => v := by
  induction l with
  | nil => rfl
  | cons x t ih =>
      obtain ⟨a, b⟩ := x
      simp only [List.map_cons]
      by_cases ha : a = id
      · subst ha
        rw [if_pos rfl]
        simp [List.lookup]
      · rw [if_neg ha]
        have hne : (id == a) = false := by
          simp only [beq_eq_false_iff_ne, ne_eq]
          exact fun h => ha h.symm
        simp [List.lookup, hne, ih]

theorem lookup_none_forall (l : List (Nat × ReceiptRow)) (id : Nat)
    (h : List.lookup id l = none) : ∀ x ∈ l, x.1 ≠ id := by
  induction l with
  | nil => intro x hx; cases hx
  | cons a t ih =>
      intro x hx
      rcases List.mem_cons.mp hx with hx | hx
      · subst hx
        intro hxid
        simp [List.lookup, hxid] at h
      · by_cases ha : a.1 = id
        · simp [List.lookup, ha] at h
        · have hne : (id == a.1) = false := by
            simp only [beq_eq_false_iff_ne, ne_eq]
            exact fun h' => ha h'.symm
          refine ih ?_ x hx
          obtain ⟨k, w⟩ := a
          simpa [List.lookup, hne] using h

theorem getRecordById_isShared_none (db : Db) (id : Nat) (r : ReceiptRecord)
    (h : getRecordById db id = some r) : ∀ p ∈ r.products, p.isShared = none := by
  unfold getRecordById at h
  obtain ⟨row, _, hr⟩ := Option.map_eq_some'.mp h
  intro p hp
  rw [← hr] at hp
  simp only at hp
  obtain ⟨q, _, hq⟩ := List.mem_map.mp hp
  rw [← hq]

theorem updateReceiptStatus_spec (db : Db) (id : Nat) (r : ReceiptRecord)
    (s : ReceiptStatus) (ts : Nat) (d : Option String)
    (h : getRecordById db id = some r) :
    ∃ db', updateReceiptStatus db id s ts d = .ok db' ∧
      getRecordById db' id =
        some { r with
                 status := s
                 statusHistory := r.statusHistory ++ [⟨s, ts, d⟩] } ∧
      db'.products = db.products := by
  unfold getRecordById at h
  obtain ⟨row, hrow, hr⟩ := Option.map_eq_some'.mp h
  subst hr
  refine ⟨{ db with
              receipts := db.receipts.map fun x =>
                if x.1 = id then
                  (id, { row with
                           status := s
                           status_history := row.status_history ++ [⟨s, ts, d⟩] })
                else x },
          ?_, ?_, rfl⟩
  · unfold updateReceiptStatus
    rw [hrow]
  · unfold getRecordById
    simp only [lookup_map_const, hrow, Option.map_some']

theorem statusD_spec (db : Db) (id : Nat) (r : ReceiptRecord)
    (s : ReceiptStatus) (ts : Nat) (d : Option String)
    (h : getRecordById db id = some r) :
    getRecordById (statusD db id s ts d) id =
      some { r with
               status := s
               statusHistory := r.statusHistory ++ [⟨s, ts, d⟩] } ∧
    (statusD db id s ts d).products = db.products := by
  obtain ⟨db', heq, hget, hprod⟩ := updateReceiptStatus_spec db id r s ts d h
  rw [statusD, heq]
  exact ⟨hget, hprod⟩

theorem statusAfter_concat (d : ReceiptStatus) (init : List StatusCall) (c : StatusCall) :
    statusAfter d (init ++ [c]) = c.1 := by
  induction init generalizing d with
  | nil => rfl
  | cons a t ih => exact ih a.1

theorem appendStatusSeq_spec (id : Nat) (calls : List StatusCall) :
    ∀ (db : Db) (r : ReceiptRecord), getRecordById db id = some r →
      ∃ db', appendStatusSeq db id calls = .ok db' ∧
        getRecordById db' id =
          some { r with
                   status := statusAfter r.status calls
                   statusHistory := r.statusHistory ++ calls.map callEntry } := by
  induction calls with
  | nil =>
      intro db r h
      refine ⟨db, rfl, ?_⟩
      simpa [statusAfter] using h
  | cons c cs ih =>
      intro db r h
      obtain ⟨db1, heq, hget, -⟩ :=
        updateReceiptStatus_spec db id r c.1 c.2.1 c.2.2 h
      obtain ⟨db', hseq, hget'⟩ := ih db1 _ hget
      refine ⟨db', ?_, ?_⟩
      · rw [appendStatusSeq, heq]
        exact hseq
      · rw [hget']
        simp only [statusAfter, List.map_cons, callEntry, List.append_assoc,
          List.singleton_append]

theorem flipShared_name (p : ReceiptProduct) : (flipShared p).name = p.name := rfl

theorem flipShared_price (p : ReceiptProduct) : (flipShared p).price = p.price := rfl

theorem flipShared_category (p : ReceiptProduct) :
    (flipShared p).category = p.category := rfl

theorem flipShared_truthy (p : ReceiptProduct) :
    jsTruthy (flipShared p).isShared = !jsTruthy p.isShared := rfl

theorem flipShared_flipShared (p : ReceiptProduct) (h : p.isShared.isSome) :
    flipShared (flipShared p) = p := by
  obtain ⟨b, hb⟩ := Option.isSome_iff_exists.mp h
  cases p
  simp only [flipShared, jsTruthy] at hb ⊢
  simp [hb]

theorem iterFlip_name (c : Nat) (p : ReceiptProduct) :
    (flipShared^[c] p).name = p.name := by
  induction c generalizing p with
  | zero => rfl
  | succ c ih => rw [Function.iterate_succ_apply]; exact ih (flipShared p)

theorem iterFlip_price (c : Nat) (p : ReceiptProduct) :
    (flipShared^[c] p).price = p.price := by
  induction c generalizing p with
  | zero => rfl
  | succ c ih => rw [Function.iterate_succ_apply]; exact ih (flipShared p)

theorem iterFlip_category (c : Nat) (p : ReceiptProduct) :
    (flipShared^[c] p).category = p.category := by
  induction c generalizing p with
  | zero => rfl
  | succ c ih => rw [Function.iterate_succ_apply]; exact ih (flipShared p)

theorem iterFlip_truthy (c : Nat) (p : ReceiptProduct) :
    jsTruthy (flipShared^[c] p).isShared =
      ((jsTruthy p.isShared).xor (decide (c % 2 = 1))) := by
  induction c generalizing p with
  | zero => simp
  | succ c ih =>
      rw [Function.iterate_succ_apply, ih (flipShared p), flipShared_truthy]
      by_cases hc : c % 2 = 1
      · have h1 : (c + 1) % 2 = 0 := by omega
        simp [hc, h1]
      · have h1 : (c + 1) % 2 = 1 := by omega
        simp [hc, h1]

theorem iterFlip_even (c : Nat) (p : ReceiptProduct) (h : p.isShared.isSome) :
    flipShared^[c + c] p = p := by
  induction c with
  | zero => rfl
  | succ c ih =>
      have harith : c + 1 + (c + 1) = (c + c) + 2 := by omega
      rw [harith, Function.iterate_add_apply]
      have h2 : flipShared^[2] p = p := by
        rw [show (2 : Nat) = 1 + 1 from rfl, Function.iterate_add_apply]
        simpa using flipShared_flipShared p h
      rw [h2]
      exact ih

theorem toggleAt_length (ps : List ReceiptProduct) (k : Nat) :
    (toggleAt ps k).length = ps.length := by
  induction ps generalizing k with
  | nil => rfl
  | cons p t ih =>
      cases k with
      | zero => rfl
      | succ k => simpa [toggleAt] using ih k

theorem toggleAt_getElemQ (ps : List ReceiptProduct) (k j : Nat) :
    (toggleAt ps k)[j]? = if j = k then (ps[j]?).map flipShared else ps[j]? := by
  induction ps generalizing k j with
  | nil => simp [toggleAt]
  | cons p t ih =>
      cases k with
      | zero =>
          cases j with
          | zero => simp [toggleAt]
          | succ j => simp [toggleAt]
      | succ k =>
          cases j with
          | zero => simp [toggleAt]
          | succ j => simpa [toggleAt] using ih k j

theorem applyToggles_length (nums : List Int) (ps : List ReceiptProduct) :
    (applyToggles nums ps).length = ps.length := by
  induction nums generalizing ps with
  | nil => rfl
  | cons n rest ih =>
      show (applyToggles rest _).length = _
      rw [ih]
      by_cases hn : 1 ≤ n
      · simp [hn, toggleAt_length]
      · simp [hn]

theorem applyToggles_getElemQ (nums : List Int) (ps : List ReceiptProduct) (j : Nat) :
    (applyToggles nums ps)[j]? =
      (ps[j]?).map (flipShared^[nums.count ((j : Int) + 1)]) := by
  induction nums generalizing ps with
  | nil => simp [applyToggles]
  | cons n rest ih =>
      have hstep : applyToggles (n :: rest) ps =
          applyToggles rest (if 1 ≤ n then toggleAt ps (n - 1).toNat else ps) := rfl
      rw [hstep, ih]
      by_cases hn : n = (j : Int) + 1
      · have h1 : 1 ≤ n := by omega
        have hj : (n - 1).toNat = j := by omega
        rw [if_pos h1, hj, toggleAt_getElemQ, if_pos rfl, Option.map_map]
        have hcount : (n :: rest).count ((j : Int) + 1) =
            rest.count ((j : Int) + 1) + 1 := by
          simp [List.count_cons, hn]
        rw [hcount, ← Function.iterate_succ]
      · have h2 : ¬((j : Int) + 1 = n) := fun h => hn h.symm
        have hcount : (n :: rest).count ((j : Int) + 1) =
            rest.count ((j : Int) + 1) := by
          simp [List.count_cons, hn, h2]
        rw [hcount]
        by_cases h1 : 1 ≤ n
        · have hj : (n - 1).toNat ≠ j := by omega
          rw [if_pos h1, toggleAt_getElemQ, if_neg (fun h => hj h.symm)]
        · rw [if_neg h1]

/-! ## Claim theorems -/

/-- C3: for every stored record, a sequence of N `updateReceiptStatus`
calls succeeds, leaves the history with N entries more than before, keeps
every previously written entry unchanged (the old history is a prefix of
the new one), and ends with a last entry whose status equals the record's
current `status` field. -/
theorem c3_appendStatus_history (db : Db) (id : Nat) (r : ReceiptRecord)
    (calls : List StatusCall) (h : getRecordById db id = some r) :
    ∃ db' r', appendStatusSeq db id calls = .ok db' ∧
      getRecordById db' id = some r' ∧
      r'.statusHistory.length = r.statusHistory.length + calls.length ∧
      r'.statusHistory.take r.statusHistory.length = r.statusHistory ∧
      (calls ≠ [] →
        ∃ pre last, r'.statusHistory = pre ++ [last] ∧ last.status = r'.status) := by
  obtain ⟨db', hseq, hget⟩ := appendStatusSeq_spec id calls db r h
  refine ⟨db', _, hseq, hget, ?_, ?_, ?_⟩
  · simp
  · exact take_len_append _ _
  · intro hne
    obtain ⟨init, c, hc⟩ := exists_concat calls hne
    subst hc
    refine ⟨r.statusHistory ++ init.map callEntry, callEntry c, ?_, ?_⟩
    · simp [List.map_append, List.append_assoc]
    · simp [callEntry, statusAfter_concat]

/-- C5: one iteration of the mixed-mode selection loop.  `STOP` exits
without mutation; `SHOW` redisplays without mutation; otherwise the
surviving selections are exactly the comma-separated tokens that parse to
an index in `[1, itemCount]`, each occurrence toggles (xors) that item's
flag (so item `j` ends flipped iff its index occurs an odd number of
times), items never selected are untouched, names/prices/categories are
never touched, the length is preserved, an empty surviving set reports
invalid input and mutates nothing, and an accepted mutation redisplays the
list. -/
theorem c5_selection_loop_step (input : String) (ps : List ReceiptProduct) :
    (toUpperStr input = "STOP" → selStep input ps = ⟨ps, true, false, false⟩) ∧
    (toUpperStr input = "SHOW" → selStep input ps = ⟨ps, false, true, false⟩) ∧
    (toUpperStr input ≠ "STOP" → toUpperStr input ≠ "SHOW" →
      (selStep input ps).exited = false ∧
      (selStep input ps).invalidMsg = (parseSelections input ps.length).isEmpty ∧
      (selStep input ps).redisplayed = !(parseSelections input ps.length).isEmpty ∧
      ((parseSelections input ps.length).isEmpty = true →
        (selStep input ps).products = ps) ∧
      (selStep input ps).products.length = ps.length ∧
      (∀ (j : Nat) (p q : ReceiptProduct), ps[j]? = some p →
        (selStep input ps).products[j]? = some q →
        q.name = p.name ∧ q.price = p.price ∧ q.category = p.category ∧
        jsTruthy q.isShared =
          ((jsTruthy p.isShared).xor
            (decide ((parseSelections input ps.length).count ((j : Int) + 1) % 2 = 1))) ∧
        ((parseSelections input ps.length).count ((j : Int) + 1) = 0 → q = p))) := by
  refine ⟨fun h => by simp [selStep, h], fun h => by simp [selStep, h], fun h1 h2 => ?_⟩
  have hsel : selStep input ps =
      (if (parseSelections input ps.length).isEmpty then ⟨ps, false, false, true⟩
       else ⟨applyToggles (parseSelections input ps.length) ps, false, true, false⟩) := by
    rw [selStep, if_neg h1, if_neg h2]
  by_cases he : (parseSelections input ps.length).isEmpty
  · have hnil : parseSelections input ps.length = [] := by
      simpa using he
    rw [hsel, if_pos he]
    refine ⟨rfl, by simp [he], by simp [he], fun _ => rfl, rfl, ?_⟩
    intro j p q hp hq
    rw [hp] at hq
    obtain rfl : p = q := by simpa using hq
    simp [hnil]
  · have hf : (parseSelections input ps.length).isEmpty = false := by
      simpa using he
    rw [hsel, if_neg he]
    refine ⟨rfl, by simp [hf], by simp [hf], fun hc => absurd hc he,
      applyToggles_length _ _, ?_⟩
    intro j p q hp hq
    rw [applyToggles_getElemQ, hp] at hq
    obtain rfl : q = flipShared^[(parseSelections input ps.length).count ((j : Int) + 1)] p := by
      simpa using hq.symm
    refine ⟨iterFlip_name _ _, iterFlip_price _ _, iterFlip_category _ _,
      iterFlip_truthy _ _, ?_⟩
    intro hzero
    rw [hzero]
    rfl

/-- Witness for C5: the spec's worked example.  `STOP` exits, `SHOW` leaves
the list alone, `99` is reported invalid with no change, `1,2` toggles the
first two flags, and a subsequent `1` toggles the first back. -/
theorem c5_selection_loop_step_witness :
    (selStep "STOP" ex3).exited = true ∧
    (selStep "SHOW" ex3).products = ex3 ∧
    (selStep "99" ex3).invalidMsg = true ∧
    (selStep "99" ex3).products = ex3 ∧
    (selStep "1,2" ex3).products.map (fun p => jsTruthy p.isShared) =
      [true, true, false] ∧
    (selStep "1" (selStep "1,2" ex3).products).products.map
        (fun p => jsTruthy p.isShared) = [false, true, false] := by
  have hstop := (c5_selection_loop_step "STOP" ex3).1 (by decide)
  have hshow := (c5_selection_loop_step "SHOW" ex3).2.1 (by decide)
  have h99 := (c5_selection_loop_step "99" ex3).2.2 (by decide) (by decide)
  refine ⟨by rw [hstop], by rw [hshow], ?_, ?_, by decide, by decide⟩
  · rw [h99.2.1]
    decide
  · exact h99.2.2.2.1 (by decide)

theorem mem_of_getElemQ {α : Type} :
    ∀ (l : List α) (j : Nat) (a : α), l[j]? = some a → a ∈ l := by
  intro l
  induction l with
  | nil => intro j a h; simp at h
  | cons b t ih =>
      intro j a h
      cases j with
      | zero =>
          simp only [List.getElem?_cons_zero, Option.some.injEq] at h
          exact h ▸ List.mem_cons_self b t
      | succ j => exact List.mem_cons_of_mem _ (ih j a (by simpa using h))

/-- C9: in the mixed-mode selection loop, feeding the same input twice in a
row restores every item's flag (in particular, toggling the same index
twice is the identity), provided every item carries a flag — which is
always the case inside the multi branch, where the default was applied to
all items first. -/
theorem c9_double_toggle (input : String) (ps : List ReceiptProduct)
    (h : ∀ p ∈ ps, p.isShared.isSome) :
    (selStep input ((selStep input ps).products)).products = ps := by
  by_cases h1 : toUpperStr input = "STOP"
  · simp [selStep, h1]
  by_cases h2 : toUpperStr input = "SHOW"
  · simp [selStep, h1, h2]
  by_cases he : (parseSelections input ps.length).isEmpty
  · have e1 : (selStep input ps).products = ps := by
      rw [selStep, if_neg h1, if_neg h2, if_pos he]
    rw [e1]
    exact e1
  · have e1 : (selStep input ps).products =
        applyToggles (parseSelections input ps.length) ps := by
      rw [selStep, if_neg h1, if_neg h2, if_neg he]
    have hlen : (applyToggles (parseSelections input ps.length) ps).length =
        ps.length := applyToggles_length _ _
    have e2 : (selStep input (applyToggles (parseSelections input ps.length) ps)).products =
        applyToggles (parseSelections input ps.length)
          (applyToggles (parseSelections input ps.length) ps) := by
      rw [selStep, if_neg h1, if_neg h2, hlen, if_neg he]
    rw [e1, e2]
    apply ext_of_getElemQ
    intro j
    rw [applyToggles_getElemQ, applyToggles_getElemQ, Option.map_map]
    cases hp : ps[j]? with
    | none => simp
    | some p =>
        have hsome := h p (mem_of_getElemQ ps j p hp)
        simp only [Option.map_some']
        congr 1
        show flipShared^[(parseSelections input ps.length).count ((j : Int) + 1)]
            (flipShared^[(parseSelections input ps.length).count ((j : Int) + 1)] p) = p
        rw [← Function.iterate_add_apply]
        exact iterFlip_even _ p hsome

/-- Witness for C9: toggling index 1 twice on a one-item list restores it. -/
theorem c9_double_toggle_witness :
    (selStep "1" ((selStep "1" [(⟨"A", 1, "C", some false⟩ : ReceiptProduct)]).products)).products =
      [(⟨"A", 1, "C", some false⟩ : ReceiptProduct)] :=
  c9_double_toggle "1" [⟨"A", 1, "C", some false⟩] (by decide)

/-- Witness for C3: two concrete status calls against the store `dbA`. -/
theorem c3_appendStatus_history_witness :
    ∃ db' r',
      appendStatusSeq dbA 1
          [(.PROCESSING, 1, none), (.COMPLETED, 2, some "done")] = .ok db' ∧
      getRecordById db' 1 = some r' ∧
      r'.statusHistory.length = recA.statusHistory.length + 2 ∧
      r'.statusHistory.take recA.statusHistory.length = recA.statusHistory ∧
      ([(.PROCESSING, 1, none), (.COMPLETED, 2, some "done")] ≠
          ([] : List StatusCall) →
        ∃ pre last, r'.statusHistory = pre ++ [last] ∧ last.status = r'.status) :=
  c3_appendStatus_history dbA 1 recA
    [(.PROCESSING, 1, none), (.COMPLETED, 2, some "done")] (by rfl)

/-- C7: when a photo-triggered run exits through the manual-entry
delegation branch, the sheets-error branch, or an uncaught exception,
`isProcessing` stays `true`, and from then on every inbound photo, `/start`
or manual-entry command is dropped without starting a flow, with the guard
never released again. -/
theorem c7_guard_leak (o : PhotoOutcome)
    (h : o = .manualBranch ∨ o = .sheetsError ∨ o = .thrown) :
    stepEvent false (.photo o) = (true, true) ∧
    ∀ evs : List BotEvent,
      (runEvents true evs).1 = true ∧ ∀ s ∈ (runEvents true evs).2, s = false := by
  constructor
  · rcases h with h | h | h <;> subst h <;> rfl
  · intro evs
    induction evs with
    | nil => exact ⟨rfl, by intro s hs; cases hs⟩
    | cons e es ih =>
        have hstep : stepEvent true e = (true, false) := rfl
        refine ⟨?_, ?_⟩
        · show (runEvents true (e :: es)).1 = true
          simp only [runEvents, hstep]
          exact ih.1
        · intro s hs
          simp only [runEvents, hstep] at hs
          rcases List.mem_cons.mp hs with hs | hs
          · exact hs
          · exact ih.2 s hs

/-- Witness for C7: after a sheets-error exit, a photo, a `/start` and a
manual command are all dropped. -/
theorem c7_guard_leak_witness :
    stepEvent false (.photo .sheetsError) = (true, true) ∧
    (runEvents true [.photo .aiSuccess, .startCmd, .manualCmd]).1 = true ∧
    ∀ s ∈ (runEvents true [.photo .aiSuccess, .startCmd, .manualCmd]).2, s = false := by
  have h := c7_guard_leak .sheetsError (Or.inr (Or.inl rfl))
  exact ⟨h.1, (h.2 [.photo .aiSuccess, .startCmd, .manualCmd]).1,
    (h.2 [.photo .aiSuccess, .startCmd, .manualCmd]).2⟩

/-- C10: `waitForAnswer` ignores every event that is neither the timer nor
a message from the right chat passing the filter; it resolves with the
first matching message when one arrives before the timer, and resolves with
`null` when the timer fires first. -/
theorem c10_waitForAnswer (chatId : Nat) (filter : TMsg → Bool)
    (pre : List WaitEvent) (hpre : ∀ e ∈ pre, nonResolving chatId filter e) :
    (∀ rest, waitResolve chatId filter (pre ++ rest) =
      waitResolve chatId filter rest) ∧
    (∀ (m : TMsg) (post : List WaitEvent), m.chatId = chatId → filter m = true →
      waitResolve chatId filter (pre ++ .msg m :: post) = some (some m)) ∧
    (∀ post : List WaitEvent,
      waitResolve chatId filter (pre ++ .timerFires :: post) = some none) := by
  have hskip : ∀ rest, waitResolve chatId filter (pre ++ rest) =
      waitResolve chatId filter rest := by
    intro rest
    induction pre with
    | nil => rfl
    | cons e es ih =>
        have he := hpre e (List.mem_cons_self e es)
        have hes : ∀ e' ∈ es, nonResolving chatId filter e' := fun e' h' =>
          hpre e' (List.mem_cons_of_mem e h')
        cases e with
        | timerFires => exact he.elim
        | msg m =>
            have hcond : ¬((m.chatId = chatId && filter m) = true) := by
              simp only [nonResolving] at he
              by_cases hc : m.chatId = chatId
              · have hf : filter m = false := by
                  cases hfm : filter m
                  · rfl
                  · exact absurd ⟨hc, hfm⟩ he
                simp [hf]
              · simp [hc]
            show waitResolve chatId filter (.msg m :: (es ++ rest)) = _
            rw [waitResolve, if_neg hcond]
            exact ih hes
  refine ⟨hskip, ?_, ?_⟩
  · intro m post hm hf
    rw [hskip]
    show waitResolve chatId filter (.msg m :: post) = some (some m)
    rw [waitResolve, if_pos (by simp [hm, hf])]
  · intro post
    rw [hskip]
    rfl

/-- Witness for C10: a message from another chat and a filter-failing
message are skipped, the first matching message resolves, and with the
timer first the wait resolves `null`. -/
theorem c10_waitForAnswer_witness :
    (waitResolve 7 (fun m => m.text.isSome)
        ([.msg ⟨8, some "x"⟩, .msg ⟨7, none⟩] ++
          .msg ⟨7, some "hi"⟩ :: [.timerFires]) = some (some ⟨7, some "hi"⟩)) ∧
    (waitResolve 7 (fun m => m.text.isSome)
        ([.msg ⟨8, some "x"⟩, .msg ⟨7, none⟩] ++
          .timerFires :: [.msg ⟨7, some "hi"⟩]) = some none) := by
  have h := c10_waitForAnswer 7 (fun m => m.text.isSome)
    [.msg ⟨8, some "x"⟩, .msg ⟨7, none⟩] (by decide)
  exact ⟨h.2.1 ⟨7, some "hi"⟩ [.timerFires] rfl rfl, h.2.2 [.msg ⟨7, some "hi"⟩]⟩

/-- C1 (claim fails on the code): one line item written with
`isShared = true` via `updateRecord` is read back by `getRecordById` with
the same name, price and category, in the same position, but with its
`isShared` flag gone (`none`) — the `products` table has no such column. -/
theorem c1_update_getById_drops_isShared :
    recB.products.map (·.isShared) = [some true] ∧
    ((updateRecord dbA 1 recB).toOption.bind (getRecordById · 1)).map (·.products) =
      some [⟨"Mleko", 3 / 2, "FOH", none⟩] ∧
    (some true : Option Bool) ≠ none := by
  refine ⟨rfl, rfl, by decide⟩

/-- C2 (claim fails on the code): the end-to-end AI scenario never gets
anywhere near the export sink — the photo handler's very first store call,
`createRecord(initialRecord)`, binds NULL into the NOT NULL
`purchase_type` column (the record carries no `purchaseType`) and the
INSERT is rejected; with no try/catch in the handler the whole flow dies
there, so no record exists, no status is ever appended, and no row reaches
the sink — instead of the claimed per-item rows and a status sequence
ending `SAVED_TO_SHEETS, COMPLETED`.  (And were a record present, the
export step would still fail: `exportPhase` throws the missing-`isShared`
`TypeError` on the first item of any stored, non-empty product list.) -/
theorem c2_ai_flow_scenario :
    c2flow =
      .error "SQLITE_CONSTRAINT: NOT NULL constraint failed: receipts.purchase_type" ∧
    c2flow.isOk = false := by
  exact ⟨rfl, rfl⟩

/-- C4 (claim fails on the code): with two fully flagged items and a sheets
API that errors on the first append, the loop does not abort and no error
reaches the caller — the failed row is silently skipped, the second item is
still exported, so the flow goes on to `SAVED_TO_SHEETS`/`COMPLETED`
instead of `ERROR`. -/
theorem c4_export_failure_counterexample :
    apiFailFirst 0 = .fail ∧
    exportProducts "Sklep" apiFailFirst ps2 0 =
      ([⟨"Sklep", "Spodnie", 50 * commonExpensePercentage, "CLT", "true"⟩], none) ∧
    (50 : ℚ) * commonExpensePercentage = 25 := by
  refine ⟨rfl, rfl, by norm_num [commonExpensePercentage]⟩

/-- C4 (amended): export failures reaching the caller abort the rest and
end in `ERROR`, but sheets-API failures are swallowed.  (a) When every item
carries a flag, no error ever reaches the caller, whatever the API does —
failed rows are skipped and the loop continues.  (b) An error thrown by
`appendRecord` (the missing-flag `TypeError`) aborts the remaining appends,
keeps the rows already written (no rollback), and surfaces the message.
(c) At the flow level, a record whose stored products are non-empty makes
the export throw on the first item; the flow then records `ERROR` with the
underlying message appended to `Failed to save to Google Sheets: `, exports
nothing further, and performs no retry. -/
theorem c4_export_failure_amended (store : String) (api : Nat → SheetsApi) :
    (∀ (ps : List ReceiptProduct) (k : Nat), (∀ q ∈ ps, q.isShared.isSome) →
      (exportProducts store api ps k).2 = none) ∧
    (∀ (qs rs : List ReceiptProduct) (p : ReceiptProduct) (k : Nat),
      (∀ q ∈ qs, q.isShared.isSome) → p.isShared = none →
      exportProducts store api (qs ++ p :: rs) k =
        ((exportProducts store api qs k).1, some typeErrMsg)) ∧
    (∀ (db : Db) (id : Nat) (r : ReceiptRecord) (ts : Nat),
      getRecordById db id = some r → r.products ≠ [] →
      (exportPhase db id api ts).rows = [] ∧
      ∃ r', getRecordById (exportPhase db id api ts).db id = some r' ∧
        r'.status = .ERROR ∧
        ∃ pre, r'.statusHistory = pre ++
          [⟨.ERROR, ts + 1,
            some ("Failed to save to Google Sheets: " ++ typeErrMsg)⟩]) := by
  have parta : ∀ (store' : String) (ps : List ReceiptProduct) (k : Nat),
      (∀ q ∈ ps, q.isShared.isSome) →
      (exportProducts store' api ps k).2 = none := by
    intro store' ps
    induction ps with
    | nil => intro k _; rfl
    | cons p t ih =>
        intro k h
        obtain ⟨b, hb⟩ :=
          Option.isSome_iff_exists.mp (h p (List.mem_cons_self p t))
        have ht := fun q hq => h q (List.mem_cons_of_mem p hq)
        cases hapi : api k <;>
          simp [exportProducts, appendRecordG, hb, hapi, ih (k + 1) ht]
  have partb : ∀ (store' : String) (qs rs : List ReceiptProduct) (p : ReceiptProduct)
      (k : Nat), (∀ q ∈ qs, q.isShared.isSome) → p.isShared = none →
      exportProducts store' api (qs ++ p :: rs) k =
        ((exportProducts store' api qs k).1, some typeErrMsg) := by
    intro store' qs
    induction qs with
    | nil =>
        intro rs p k _ hp
        simp [exportProducts, appendRecordG, hp]
    | cons q t ih =>
        intro rs p k h hp
        obtain ⟨b, hb⟩ :=
          Option.isSome_iff_exists.mp (h q (List.mem_cons_self q t))
        have ht := fun q' hq => h q' (List.mem_cons_of_mem q hq)
        cases hapi : api k <;>
          simp [exportProducts, appendRecordG, hb, hapi, ih rs p (k + 1) ht hp]
  refine ⟨parta store, partb store, ?_⟩
  intro db id r ts hr hne
  obtain ⟨hget1, -⟩ := statusD_spec db id r .PROCESSING ts
    (some "Saving to Google Sheets") hr
  have hprods : ({ r with
      status := ReceiptStatus.PROCESSING
      statusHistory := r.statusHistory ++
        [⟨.PROCESSING, ts, some "Saving to Google Sheets"⟩] } : ReceiptRecord).products
      = r.products := rfl
  have hnone := getRecordById_isShared_none db id r hr
  have hexp : appendReceiptToGoogleSheets
      (statusD db id .PROCESSING ts (some "Saving to Google Sheets")) id api =
      ([], some typeErrMsg) := by
    rw [appendReceiptToGoogleSheets, hget1]
    simp only [hprods]
    cases hps : r.products with
    | nil => exact absurd hps hne
    | cons p t =>
        have hp : p.isShared = none := hnone p (hps ▸ List.mem_cons_self p t)
        have := partb (r.storeName.getD "") [] t p 0 (by intro q hq; cases hq) hp
        simpa [exportProducts] using this
  have hphase : exportPhase db id api ts =
      ⟨statusD (statusD db id .PROCESSING ts (some "Saving to Google Sheets")) id
          .ERROR (ts + 1)
          (some ("Failed to save to Google Sheets: " ++ typeErrMsg)),
        [], true⟩ := by
    rw [exportPhase, hexp]
  rw [hphase]
  obtain ⟨hget2, -⟩ := statusD_spec _ id _ .ERROR (ts + 1)
    (some ("Failed to save to Google Sheets: " ++ typeErrMsg)) hget1
  refine ⟨rfl, _, hget2, rfl, ?_⟩
  exact ⟨r.statusHistory ++ [⟨.PROCESSING, ts, some "Saving to Google Sheets"⟩],
    by simp⟩

/-- Witness for C4 (amended): with one flagged item followed by one
unflagged item under a healthy API, the flagged item's row is written, the
unflagged item throws, and nothing after it runs; and with all items
flagged, a failing API still yields no caller-visible error. -/
theorem c4_export_failure_amended_witness :
    (exportProducts "S" (fun _ => .ok)
        ([⟨"Kurtka", 100, "CLT", some true⟩] ++
          (⟨"Spodnie", 50, "CLT", none⟩ : ReceiptProduct) :: []) 0 =
      ((exportProducts "S" (fun _ => .ok) [⟨"Kurtka", 100, "CLT", some true⟩] 0).1,
        some typeErrMsg)) ∧
    (exportProducts "Sklep" apiFailFirst ps2 0).2 = none := by
  have h1 := (c4_export_failure_amended "S" (fun _ => .ok)).2.1
    [⟨"Kurtka", 100, "CLT", some true⟩] [] ⟨"Spodnie", 50, "CLT", none⟩ 0
    (by decide) rfl
  have h2 := (c4_export_failure_amended "Sklep" apiFailFirst).1 ps2 0 (by decide)
  exact ⟨h1, h2⟩

/-- C6: if the manual-entry product loop collects zero products (e.g. its
first input is `stop`), the flow aborts with the zero-products validation
error: the spreadsheet export is never invoked, no row is written, and the
record ends in `ERROR` whose last history entry carries the validation
message. -/
theorem c6_manual_zero_products (db : Db) (i : Nat) (r : ReceiptRecord)
    (storeInput typeAnswer : String) (itemInputs : List String)
    (api : Nat → SheetsApi)
    (hr : getRecordById db i = some r)
    (hstore : ¬(trimStr storeInput = ""))
    (hzero : collectManual (anyKeyword commonKeywords (toLowerStr typeAnswer))
      itemInputs = []) :
    (handleManualRecipe db (some i) storeInput typeAnswer itemInputs api).exportCalled
        = false ∧
    (handleManualRecipe db (some i) storeInput typeAnswer itemInputs api).rows = [] ∧
    ∃ r', getRecordById
        (handleManualRecipe db (some i) storeInput typeAnswer itemInputs api).db i =
          some r' ∧
      r'.status = .ERROR ∧
      ∃ pre, r'.statusHistory = pre ++
        [⟨.ERROR, 9,
          some "Manual recipe entry failed: At least one product is required"⟩] := by
  have hmsg : ("Manual recipe entry failed: " ++ "At least one product is required"
      : String) = "Manual recipe entry failed: At least one product is required" := rfl
  have hmain : handleManualRecipe db (some i) storeInput typeAnswer itemInputs api =
      manualCatch (statusD db i .PROCESSING 1 (some "Starting manual recipe entry"))
        (some i) "At least one product is required" false [] := by
    rw [handleManualRecipe, hr]
    simp [hstore, hzero]
  obtain ⟨hget1, -⟩ := statusD_spec db i r .PROCESSING 1
    (some "Starting manual recipe entry") hr
  obtain ⟨hget2, -⟩ := statusD_spec _ i _ .ERROR 9
    (some ("Manual recipe entry failed: " ++ "At least one product is required")) hget1
  rw [hmain]
  exact ⟨rfl, rfl, _, hget2, rfl,
    ⟨r.statusHistory ++ [⟨.PROCESSING, 1, some "Starting manual recipe entry"⟩],
     by simp [hmsg]⟩⟩

/-- Witness for C6: against the store `dbA`, store name `Biedronka`, type
answer `w`, and the single product input `stop`. -/
theorem c6_manual_zero_products_witness :
    (handleManualRecipe dbA (some 1) "Biedronka" "w" ["stop"]
        (fun _ => .ok)).exportCalled = false ∧
    (handleManualRecipe dbA (some 1) "Biedronka" "w" ["stop"] (fun _ => .ok)).rows
        = [] ∧
    ∃ r', getRecordById
        (handleManualRecipe dbA (some 1) "Biedronka" "w" ["stop"]
          (fun _ => .ok)).db 1 = some r' ∧
      r'.status = .ERROR ∧
      ∃ pre, r'.statusHistory = pre ++
        [⟨.ERROR, 9,
          some "Manual recipe entry failed: At least one product is required"⟩] :=
  c6_manual_zero_products dbA 1 recA "Biedronka" "w" ["stop"] (fun _ => .ok)
    (by rfl) (by decide) (by decide)

theorem receipts_map_untouched (l : List (Nat × ReceiptRow)) (id : Nat)
    (g : Nat × ReceiptRow → Nat × ReceiptRow) (h : ∀ x ∈ l, x.1 ≠ id) :
    (l.map fun x => if x.1 = id then g x else x) = l := by
  induction l with
  | nil => rfl
  | cons a t ih =>
      have ha := h a (List.mem_cons_self a t)
      rw [List.map_cons, if_neg ha, ih fun x hx => h x (List.mem_cons_of_mem a hx)]

theorem products_filter_disjoint (l : List ProductRow) (id : Nat) :
    ((l.filter fun p => p.receipt_id ≠ id).filter fun p => p.receipt_id = id) = [] := by
  induction l with
  | nil => rfl
  | cons a t ih =>
      by_cases h : a.receipt_id = id
      · simp [List.filter, h, ih]
      · simp [List.filter, h, ih]

theorem products_filter_inserted (ps : List ReceiptProduct) (id : Nat) :
    ((ps.map fun p => (⟨id, p.name, p.price, p.category⟩ : ProductRow)).filter
        fun q => q.receipt_id = id) =
      ps.map fun p => ⟨id, p.name, p.price, p.category⟩ := by
  induction ps with
  | nil => rfl
  | cons a t ih => simp [List.filter, ih]

/-- C8 (amended): `updateRecord` never fails with `NotFoundError` — it
always succeeds; when the id is unknown, the receipts table is left
entirely unchanged and the product rows are nevertheless inserted under the
dangling id (foreign keys are not enforced). -/
theorem c8_update_unknown_id_amended (db : Db) (id : Nat) (rec : ReceiptRecord) :
    ∃ db', updateRecord db id rec = .ok db' ∧
      (db.receipts.lookup id = none →
        db'.receipts = db.receipts ∧
        (db'.products.filter fun p => p.receipt_id = id) =
          rec.products.map fun p => ⟨id, p.name, p.price, p.category⟩) := by
  refine ⟨_, rfl, fun hnone => ⟨?_, ?_⟩⟩
  · exact receipts_map_untouched db.receipts id _ (lookup_none_forall db.receipts id hnone)
  · show ((db.products.filter fun p => p.receipt_id ≠ id) ++
        rec.products.map fun p => (⟨id, p.name, p.price, p.category⟩ : ProductRow)).filter
          (fun p => p.receipt_id = id) = _
    rw [List.filter_append, products_filter_disjoint, products_filter_inserted,
      List.nil_append]

/-- Witness for C8 (amended): updating unknown id 5 in the empty store
succeeds, leaves the (empty) receipts table unchanged, and inserts the
orphan product row. -/
theorem c8_update_unknown_id_amended_witness :
    ∃ db', updateRecord dbEmpty 5 recB = .ok db' ∧
      db'.receipts = dbEmpty.receipts ∧
      (db'.products.filter fun p => p.receipt_id = 5) =
        recB.products.map fun p => ⟨5, p.name, p.price, p.category⟩ := by
  obtain ⟨db', hok, himp⟩ := c8_update_unknown_id_amended dbEmpty 5 recB
  obtain ⟨h1, h2⟩ := himp rfl
  exact ⟨db', hok, h1, h2⟩

/-- C8 (claim fails on the code): `updateRecord` on an id absent from the
store does not fail — there is no existence check and no `NotFoundError`
path; the call succeeds and even inserts the product rows under the
dangling id. -/
theorem c8_update_unknown_id_counterexample :
    getRecordById dbEmpty 5 = none ∧
    (updateRecord dbEmpty 5 recB).isOk = true ∧
    (updateRecord dbEmpty 5 recB).toOption.map (·.products) =
      some [⟨5, "Mleko", 3 / 2, "FOH"⟩] := by
  refine ⟨rfl, rfl, rfl⟩

end BudgetBot
